import Mathlib

/-!
Verification development for the vocera repository's Verification Session
Orchestrator: the audio segment extractor (`AudioUtils` in the frontend
services), the deepfake/transcription dispatch and result reconciliation in
the verify screens (`processRecording`, `handleRecordingComplete`), the
marker countdown (`handleEnterPressed` / `handleStopRecording`), and the
temp-file cleanup.

Modelling conventions:
- The expo file system is a finite map from URI strings to file records
  plus a set of directories.  File content is abstracted to an opaque
  token together with its byte size (the code never inspects bytes, it
  only copies whole files and reads sizes).
- Every asynchronous file-system call can be made to fail through an
  `FSEnv` failure oracle, mirroring promise rejection; a JavaScript
  `try`/`catch` around such calls becomes a `match` on `Except`.
- Durations are exact rationals (the source computes `size / 176400` in
  JavaScript numbers; all quantities involved are far below the range
  where binary floating point and exact arithmetic diverge for the
  operations used: `/`, `-`, `min`, `max`).
- JavaScript truthiness on strings/numbers (`x || d`) is modelled by
  explicit `jsOr` helpers that test for `""` / `0`.
-/

/-- Abstract content of a stored file: an opaque content token plus the
byte size reported by `getInfoAsync`.  A copy preserves both. -/
structure FileRec where
  content : Nat
  size : Nat
deriving DecidableEq

/-- The device file system: files (URI to record, later bindings shadow
earlier ones as in an association list) and existing directories. -/
structure FSState where
  files : List (String × FileRec)
  dirs : List String
deriving DecidableEq

/-- Failure oracle for the file-system promises: which calls reject. -/
structure FSEnv where
  getInfoFails : String → Bool
  makeDirFails : String → Bool
  copyFails : String → String → Bool
  deleteFails : String → Bool

/-- Result shape of `FileSystem.getInfoAsync`. -/
structure FileInfo where
  exists_ : Bool
  size : Nat
deriving DecidableEq

/-- Does the character list `p` lead (start) the character list `s`? -/
def charsLead : List Char → List Char → Bool
  | [], _ => true
  | _ :: _, [] => false
  | a :: as, b :: bs => a == b && charsLead as bs

/-- `strStarts p s` : the string `s` starts with `p`. -/
def strStarts (p s : String) : Bool :=
  charsLead p.toList s.toList

/-- `FileSystem.documentDirectory`, fixed platform constant. -/
def documentDirectory : String := "file:///doc/"

/-- The temp directory used by `AudioUtils`: `documentDirectory + "temp_audio/"`. -/
def tempDir : String := documentDirectory ++ "temp_audio/"

/-- `FileSystem.getInfoAsync` on the modelled file system. -/
def getInfoAsync (env : FSEnv) (fs : FSState) (uri : String) : Except Unit FileInfo :=
  if env.getInfoFails uri then Except.error () else
    match fs.files.lookup uri with
    | some r => Except.ok { exists_ := true, size := r.size }
    | none => Except.ok { exists_ := fs.dirs.contains uri, size := 0 }

/-- `FileSystem.makeDirectoryAsync`. -/
def makeDirectoryAsync (env : FSEnv) (fs : FSState) (dir : String) : Except Unit FSState :=
  if env.makeDirFails dir then Except.error ()
  else Except.ok { fs with dirs := dir :: fs.dirs }

/-- `FileSystem.copyAsync {from, to}`: fails when the oracle says so or the
source does not exist; otherwise binds `to` to the source's record. -/
def copyAsync (env : FSEnv) (fs : FSState) (src dst : String) : Except Unit FSState :=
  if env.copyFails src dst then Except.error () else
    match fs.files.lookup src with
    | none => Except.error ()
    | some r => Except.ok { fs with files := (dst, r) :: fs.files }

/-- `FileSystem.deleteAsync(dir, {idempotent: true})`: removes the
directory and everything under it. -/
def deleteAsync (env : FSEnv) (fs : FSState) (dir : String) : Except Unit FSState :=
  if env.deleteFails dir then Except.error ()
  else Except.ok
    { files := fs.files.filter (fun kv => !(strStarts dir kv.1)),
      dirs := fs.dirs.filter (fun d => d != dir && !(strStarts dir d)) }

/-- `AudioSegment` interface from `audioUtils.ts`. -/
structure AudioSegment where
  uri : String
  duration : ℚ
deriving DecidableEq

/-- JavaScript `a || b` on strings: `""` is falsy. -/
def jsOrS (a b : String) : String := if a = "" then b else a

/-- JavaScript `a || b` on numbers: `0` is falsy. -/
def jsOrQ (a b : ℚ) : ℚ := if a = 0 then b else a

/-- JavaScript `a || b` on booleans. -/
def jsOrB (a b : Bool) : Bool := if a then a else b

/-- `AudioUtils.getAudioDuration`: size-based estimate
`fileInfo.size / 176400`, clamped with `Math.max(_, 0)`; any error (a
rejected `getInfoAsync`) is caught and yields `0`, and a missing file or
zero size (falsy `fileInfo.size`) also yields `0`. -/
def getAudioDuration (env : FSEnv) (fs : FSState) (uri : String) : ℚ :=
  match getInfoAsync env fs uri with
  | Except.error _ => 0
  | Except.ok info =>
    if info.exists_ && info.size != 0 then max ((info.size : ℚ) / 176400) 0 else 0

/-- `AudioUtils.ensureTempDirectory`: probe the temp directory, create it
when absent; rejections propagate to the caller. -/
def ensureTempDirectory (env : FSEnv) (fs : FSState) : Except Unit (String × FSState) :=
  match getInfoAsync env fs tempDir with
  | Except.error e => Except.error e
  | Except.ok info =>
    if info.exists_ then Except.ok (tempDir, fs)
    else
      match makeDirectoryAsync env fs tempDir with
      | Except.error e => Except.error e
      | Except.ok fs1 => Except.ok (tempDir, fs1)

/-- `audioUri.split('.')` as in JavaScript, specialised to the dot. -/
def splitDotAux : List Char → List Char → List String
  | [], acc => [String.mk acc.reverse]
  | c :: rest, acc =>
    if c == '.' then String.mk acc.reverse :: splitDotAux rest []
    else splitDotAux rest (c :: acc)

/-- `audioUri.split('.').pop() || 'm4a'` from `segmentAudio`. -/
def lastExt (uri : String) : String :=
  jsOrS ((splitDotAux uri.toList []).getLastD "") "m4a"

/-- The output path `segmentAudio` writes:
`tempDir + "segment_" + Date.now() + "." + originalExtension`. -/
def segmentOutputPath (uri : String) (now : Nat) : String :=
  tempDir ++ "segment_" ++ toString now ++ "." ++ lastExt uri

/-- The `segmentDuration` computation of `segmentAudio`:
`endTimeSeconds ? Math.min(endTimeSeconds - startTimeSeconds,
totalDuration - startTimeSeconds) : Math.min(5, totalDuration -
startTimeSeconds)`.  The guard is JavaScript truthiness, so `some 0`
takes the default branch. -/
def segmentDurationOf (startTimeSeconds : ℚ) (endTimeSeconds : Option ℚ)
    (totalDuration : ℚ) : ℚ :=
  match endTimeSeconds with
  | some e =>
    if e ≠ 0 then min (e - startTimeSeconds) (totalDuration - startTimeSeconds)
    else min 5 (totalDuration - startTimeSeconds)
  | none => min 5 (totalDuration - startTimeSeconds)

/-- `AudioUtils.segmentAudio(audioUri, startTimeSeconds, endTimeSeconds?)`:
copies the whole file into the temp directory and computes a bounded
duration estimate; returns `null` when a call inside the `try` rejects. -/
def segmentAudio (env : FSEnv) (fs : FSState) (audioUri : String)
    (startTimeSeconds : ℚ) (endTimeSeconds : Option ℚ) (now : Nat) :
    Option AudioSegment × FSState :=
  match ensureTempDirectory env fs with
  | Except.error _ => (none, fs)
  | Except.ok (td, fs1) =>
    let outputPath := td ++ "segment_" ++ toString now ++ "." ++ lastExt audioUri
    match copyAsync env fs1 audioUri outputPath with
    | Except.error _ => (none, fs1)
    | Except.ok fs2 =>
      let totalDuration := getAudioDuration env fs2 audioUri
      let segmentDuration := segmentDurationOf startTimeSeconds endTimeSeconds totalDuration
      (some { uri := outputPath, duration := segmentDuration }, fs2)

/-- `AudioUtils.extractLast5Seconds`: identity for clips of at most 5
seconds, otherwise `segmentAudio(uri, total - 5, total)`. -/
def extractLast5Seconds (env : FSEnv) (fs : FSState) (audioUri : String) (now : Nat) :
    Option AudioSegment × FSState :=
  let totalDuration := getAudioDuration env fs audioUri
  if totalDuration ≤ 5 then (some { uri := audioUri, duration := totalDuration }, fs)
  else segmentAudio env fs audioUri (totalDuration - 5) (some totalDuration) now

/-- `AudioUtils.cleanupTempFiles`: delete the temp directory when it
exists; all errors are caught and leave the file system as is. -/
def cleanupTempFiles (env : FSEnv) (fs : FSState) : FSState :=
  match getInfoAsync env fs tempDir with
  | Except.error _ => fs
  | Except.ok info =>
    if info.exists_ then
      match deleteAsync env fs tempDir with
      | Except.error _ => fs
      | Except.ok fs1 => fs1
    else fs

/-! ## Services: deepfake detection, transcription, reconciliation -/

/-- `DeepfakeDetectionResponse` from `deepfakeService.ts`:
`prediction = true` means the sample is judged a deepfake. -/
structure DeepfakeResponse where
  prediction : Bool
  confidence : ℚ
deriving DecidableEq

/-- JavaScript `parseFloat(x.toFixed(3))`: round to 3 decimal places. -/
def toFixed3 (q : ℚ) : ℚ := ((round (q * 1000) : ℤ) : ℚ) / 1000

/-- `DeepfakeService.getMockResponse`: two `Math.random()` draws `r1 r2`
in `[0, 1)` give `prediction = (r1 > 0.7)` and
`confidence = parseFloat((r2 * 0.3 + 0.7).toFixed(3))`. -/
def getMockResponse (r1 r2 : ℚ) : DeepfakeResponse :=
  { prediction := if (7 : ℚ)/10 < r1 then true else false,
    confidence := toFixed3 (r2 * (3/10) + 7/10) }

/-- `DeepfakeService.detectDeepfake`: the network call either yields a
well-formed `{prediction, confidence}` body (`Except.ok (some r)`), a body
of the wrong shape (`Except.ok none`, which the code turns into a thrown
error), or rejects (`Except.error`).  Every failure is caught and replaced
by `getMockResponse` — the method never rejects. -/
def detectDeepfake (api : Except String (Option DeepfakeResponse)) (r1 r2 : ℚ) :
    DeepfakeResponse :=
  match api with
  | Except.ok (some r) => r
  | Except.ok none => getMockResponse r1 r2
  | Except.error _ => getMockResponse r1 r2

/-- The result object built in step 6 of `processRecording`
(`{match, confidence, transcript, isDeepfake}`). -/
structure VerificationResult where
  match_ : Bool
  confidence : ℚ
  transcript : String
  isDeepfake : Bool
deriving DecidableEq

/-- Step 6 of `processRecording`: combine the deepfake leg (`null` when no
segment was produced) with the resolved transcript.
`match: deepfakeResult ? !deepfakeResult.prediction : false`,
`confidence: deepfakeResult?.confidence || 0`,
`transcript: transcript || 'Transcription failed'`,
`isDeepfake: deepfakeResult?.prediction || false`. -/
def combineResults (deepfakeResult : Option DeepfakeResponse) (transcript : String) :
    VerificationResult :=
  { match_ :=
      match deepfakeResult with
      | some r => !r.prediction
      | none => false,
    confidence :=
      match deepfakeResult with
      | some r => jsOrQ r.confidence 0
      | none => 0,
    transcript := jsOrS transcript "Transcription failed",
    isDeepfake :=
      match deepfakeResult with
      | some r => jsOrB r.prediction false
      | none => false }

/-- Modelled from the spec: the code's result objects carry no `partial`
field; the spec's `partial` flag marks a `VerificationOutcome` that was
built although the authenticity leg contributed no verdict, which in
`processRecording` is exactly the `deepfakeResult = null` path. -/
def degradedOutcome (deepfakeResult : Option DeepfakeResponse) : Bool :=
  deepfakeResult.isNone

/-- The result object built in `handleRecordingComplete`
(`{match, confidence, transcript}`). -/
structure FinalResult where
  match_ : Bool
  confidence : ℚ
  transcript : String
deriving DecidableEq

/-- `finalTranscript` in `handleRecordingComplete`: the Whisper value
unless it is the caught-rejection sentinel `'Transcription failed'`, which
is replaced by `'Transcription unavailable'`. -/
def mkFinalTranscript (fullTranscript : String) : String :=
  if fullTranscript ≠ "Transcription failed" then fullTranscript
  else "Transcription unavailable"

/-- `finalResult` in `handleRecordingComplete`:
`{match: !verificationResult.prediction || false,
confidence: verificationResult.confidence || 0, transcript}`. -/
def mkFinalResult (verificationResult : DeepfakeResponse) (finalTranscript : String) :
    FinalResult :=
  { match_ := jsOrB (!verificationResult.prediction) false,
    confidence := jsOrQ verificationResult.confidence 0,
    transcript := finalTranscript }

/-! ## Dispatch traces

The two verify flows are sequences of suspension points.  Each flow is
embedded as a function that, besides its outcome, reports the order of the
dispatcher-relevant events: when each leg's request is issued and when its
result is in hand (for the transcription leg, the point where the flow
obtains the resolved value: the `await`/`Promise.all` join). -/

inductive DispatchEvent where
  | transcriptionStart (uri : String)
  | transcriptionResolve
  | authenticityStart (uri : String)
  | authenticityResolve
  | reconcile
deriving DecidableEq

def isTranscriptionStart : DispatchEvent → Bool
  | DispatchEvent.transcriptionStart _ => true
  | _ => false

def isTranscriptionResolve : DispatchEvent → Bool
  | DispatchEvent.transcriptionResolve => true
  | _ => false

def isAuthenticityStart : DispatchEvent → Bool
  | DispatchEvent.authenticityStart _ => true
  | _ => false

def isAuthenticityResolve : DispatchEvent → Bool
  | DispatchEvent.authenticityResolve => true
  | _ => false

def isReconcile : DispatchEvent → Bool
  | DispatchEvent.reconcile => true
  | _ => false

/-- Position of the first event satisfying `p`. -/
def evIdx (tr : List DispatchEvent) (p : DispatchEvent → Bool) : Nat :=
  tr.findIdx p

/-- Both legs appear and the outcome is computed only after both have
resolved. -/
def reconcileAfterBothLegs (tr : List DispatchEvent) : Bool :=
  tr.any isReconcile && tr.any isTranscriptionResolve && tr.any isAuthenticityResolve &&
  Nat.blt (evIdx tr isTranscriptionResolve) (evIdx tr isReconcile) &&
  Nat.blt (evIdx tr isAuthenticityResolve) (evIdx tr isReconcile)

/-- The two legs are concurrent: each leg's request is issued before the
other leg's result is in hand, so the two in-flight intervals overlap. -/
def legsOverlap (tr : List DispatchEvent) : Bool :=
  Nat.blt (evIdx tr isTranscriptionStart) (evIdx tr isAuthenticityResolve) &&
  Nat.blt (evIdx tr isAuthenticityStart) (evIdx tr isTranscriptionResolve)

/-! ## Session flow of `processRecording` (call screen, part_003) -/

/-- Entry appended by `addSavedCall` in step 8 of `processRecording`. -/
structure SavedCall where
  name : String
  audioUri : String
  transcript : String
  confidence : ℚ
  verified : Bool
deriving DecidableEq

/-- Environment of one `processRecording` run: the module-level state it
reads and the outcome of each remote call.  `transcription` is the
`openaiService.transcribeAudio` promise (which rethrows every internal
error), `findUser` the `supabaseService.findUserByName` call,
`deepfakeApi` plus the two random draws feed `detectDeepfake`. -/
structure ProcEnv where
  fsEnv : FSEnv
  fs0 : FSState
  now : Nat
  callerPhraseTime : Option Nat
  recordingStartTime : Option Nat
  transcription : Except String String
  findUser : Except String (Option Nat)
  deepfakeApi : Except String (Option DeepfakeResponse)
  r1 : ℚ
  r2 : ℚ
  userId : Option Nat
  callerName : String

/-- How a `processRecording` run ends: `completed` reaches the `result`
step with the combined result, the saved-call additions and the final file
system; `reset` is every path through `resetToInitial` (the missing-user
alert and the outer `catch`). -/
inductive ProcOutcome where
  | completed (result : VerificationResult) (saved : List SavedCall) (fs : FSState)
  | reset (fs : FSState)
deriving DecidableEq

/-- `processRecording(audioUri)` from the call screen, with its dispatch
trace.  Steps, in source order: start the transcription promise on the
full recording; segment from the marker offset
(`(callerPhraseTime - recordingStartTime) / 1000`) when both timestamps
are set (truthy); resolve the target user (failure or `null` aborts);
run deepfake detection on the segment when one exists; `await` the
transcript (a rejection reaches the outer `catch` and resets); combine;
save a local call when `match` holds (Supabase errors are swallowed);
clean the temp files when a segment was made. -/
def processRecording (env : ProcEnv) (audioUri : String) :
    ProcOutcome × List DispatchEvent :=
  let tr0 := [DispatchEvent.transcriptionStart audioUri]
  let seg :=
    match env.callerPhraseTime, env.recordingStartTime with
    | some cpt, some rst =>
      segmentAudio env.fsEnv env.fs0 audioUri (((cpt : ℚ) - (rst : ℚ)) / 1000) none env.now
    | some _, none => (none, env.fs0)
    | none, some _ => (none, env.fs0)
    | none, none => (none, env.fs0)
  let segmentedAudio := seg.1
  let fs1 := seg.2
  match env.findUser with
  | Except.error _ => (ProcOutcome.reset fs1, tr0)
  | Except.ok none => (ProcOutcome.reset fs1, tr0)
  | Except.ok (some _) =>
    let deep :=
      match segmentedAudio with
      | some s =>
        (some (detectDeepfake env.deepfakeApi env.r1 env.r2),
         tr0 ++ [DispatchEvent.authenticityStart s.uri, DispatchEvent.authenticityResolve])
      | none => (none, tr0)
    let deepfakeResult := deep.1
    let tr1 := deep.2
    match env.transcription with
    | Except.error _ => (ProcOutcome.reset fs1, tr1)
    | Except.ok transcript =>
      let tr2 := tr1 ++ [DispatchEvent.transcriptionResolve]
      let verificationResult := combineResults deepfakeResult transcript
      let tr3 := tr2 ++ [DispatchEvent.reconcile]
      let saved :=
        if verificationResult.match_ then
          [{ name := env.callerName, audioUri := audioUri,
             transcript := jsOrS transcript "", confidence := verificationResult.confidence,
             verified := true }]
        else []
      let fs2 :=
        if segmentedAudio.isSome then cleanupTempFiles env.fsEnv fs1 else fs1
      (ProcOutcome.completed verificationResult saved fs2, tr3)

/-- Final file system of an outcome. -/
def procFinalFs : ProcOutcome → FSState
  | ProcOutcome.completed _ _ fs => fs
  | ProcOutcome.reset fs => fs

def procIsCompleted : ProcOutcome → Bool
  | ProcOutcome.completed _ _ _ => true
  | ProcOutcome.reset _ => false

def procResult : ProcOutcome → Option VerificationResult
  | ProcOutcome.completed r _ _ => some r
  | ProcOutcome.reset _ => none

/-! ## Session flow of `handleRecordingComplete` (verify screen, part_002) -/

/-- Environment of one `handleRecordingComplete` run: the resolved target
user id, the Whisper promise, and the Heroku `/verify` response body. -/
structure HrcEnv where
  fsEnv : FSEnv
  fs0 : FSState
  now : Nat
  targetUserId : Option Nat
  transcription : Except String String
  verifyApi : Except String DeepfakeResponse
  userId : Option Nat
  callerName : String

/-- How a `handleRecordingComplete` run ends: `completed` delivers the
final result; `errorReset` is the `catch` (alert, back to `ready`,
cleanup); `noTarget` the early return when no target user id is set. -/
inductive HrcOutcome where
  | completed (result : FinalResult) (saved : List SavedCall) (fs : FSState)
  | errorReset (fs : FSState)
  | noTarget
deriving DecidableEq

/-- `handleRecordingComplete(result)` from the verify screen.
`Promise.all` starts segment extraction and transcription together; the
transcription promise carries its own `.catch` yielding the sentinel
`'Transcription failed'`, so the join always delivers a transcript value.
A `null` segment throws (caught below, with cleanup); only after the join
is the Heroku `/verify` request issued on the segment; its rejection is
caught the same way.  Then the final result is built, auto-saved
(Supabase errors swallowed), the call stored locally, and the temp files
cleaned. -/
def handleRecordingComplete (env : HrcEnv) (uri : String) :
    HrcOutcome × List DispatchEvent :=
  match env.targetUserId with
  | none => (HrcOutcome.noTarget, [])
  | some _ =>
    let tr0 := [DispatchEvent.transcriptionStart uri]
    let ext := extractLast5Seconds env.fsEnv env.fs0 uri env.now
    let last5SecondsSegment := ext.1
    let fs1 := ext.2
    let fullTranscript :=
      match env.transcription with
      | Except.ok t => t
      | Except.error _ => "Transcription failed"
    let tr1 := tr0 ++ [DispatchEvent.transcriptionResolve]
    match last5SecondsSegment with
    | none => (HrcOutcome.errorReset (cleanupTempFiles env.fsEnv fs1), tr1)
    | some seg =>
      let tr2 := tr1 ++ [DispatchEvent.authenticityStart seg.uri]
      match env.verifyApi with
      | Except.error _ => (HrcOutcome.errorReset (cleanupTempFiles env.fsEnv fs1), tr2)
      | Except.ok verificationResult =>
        let tr3 := tr2 ++ [DispatchEvent.authenticityResolve]
        let finalTranscript := mkFinalTranscript fullTranscript
        let finalResult := mkFinalResult verificationResult finalTranscript
        let tr4 := tr3 ++ [DispatchEvent.reconcile]
        let saved :=
          [{ name := env.callerName, audioUri := uri, transcript := finalTranscript,
             confidence := finalResult.confidence, verified := finalResult.match_ }]
        (HrcOutcome.completed finalResult saved (cleanupTempFiles env.fsEnv fs1), tr4)

def hrcIsCompleted : HrcOutcome → Bool
  | HrcOutcome.completed _ _ _ => true
  | _ => false

def hrcResult : HrcOutcome → Option FinalResult
  | HrcOutcome.completed r _ _ => some r
  | _ => none

/-! ## Marker countdown (`handleEnterPressed` / `handleStopRecording`) -/

/-- `setCountdown(8)` in `handleEnterPressed`. -/
def countdownInit : Nat := 8

/-- State carried by the countdown interval: the displayed counter, the
step flag (`caller-speaking` surfaced?), and whether the interval fired
`handleStopRecording` and cleared itself. -/
structure CountdownState where
  countdown : Nat
  callerSpeaking : Bool
  stopped : Bool
deriving DecidableEq

/-- State right after `handleEnterPressed`: counter 8, step
`waiting-for-caller`, interval armed. -/
def countdownStart : CountdownState :=
  { countdown := countdownInit, callerSpeaking := false, stopped := false }

/-- One firing of the 1000 ms interval callback:
`if (prev <= 1) { clearInterval; handleStopRecording(); return 0 }`,
`if (prev === 6) setCurrentStep('caller-speaking')`, `return prev - 1`.
After the interval is cleared further ticks do not happen. -/
def countdownTick (s : CountdownState) : CountdownState :=
  if s.stopped then s
  else if s.countdown ≤ 1 then { s with countdown := 0, stopped := true }
  else if s.countdown = 6 then
    { countdown := s.countdown - 1, callerSpeaking := true, stopped := false }
  else { s with countdown := s.countdown - 1 }

/-- Countdown state `n` seconds (ticks) after the marker was set. -/
def runTicks (n : Nat) : CountdownState :=
  Nat.rec countdownStart (fun _ s => countdownTick s) n

/-- How `handleStopRecording` ends: `audioRecorder.stop()` may reject
(caught: alert + `resetToInitial`); a truthy `audioRecorder.uri` moves the
session to `processing` on that URI; a null URI leaves the handler without
doing anything. -/
inductive StopOutcome where
  | processing (uri : String)
  | stayed
  | errorReset
deriving DecidableEq

/-- `handleStopRecording`, with the stop call's outcome as input. -/
def handleStopRecording (stopRes : Except Unit (Option String)) : StopOutcome :=
  match stopRes with
  | Except.error _ => StopOutcome.errorReset
  | Except.ok (some uri) => StopOutcome.processing uri
  | Except.ok none => StopOutcome.stayed

/-- Saved-call list of an outcome. -/
def procSaved : ProcOutcome → List SavedCall
  | ProcOutcome.completed _ s _ => s
  | ProcOutcome.reset _ => []

/-- Did an `Except` computation succeed? -/
def isOkE {ε α : Type} : Except ε α → Bool
  | Except.ok _ => true
  | Except.error _ => false

/-! ## Concrete fixtures

A small device state used to exercise the flows on explicit inputs: a
one-second (or twelve-second) recording at `file:///rec.m4a`, the temp
directory already present, and service environments for the various
success and failure scenarios. -/

/-- All file-system calls succeed. -/
def okFSEnv : FSEnv :=
  { getInfoFails := fun _ => false, makeDirFails := fun _ => false,
    copyFails := fun _ _ => false, deleteFails := fun _ => false }

/-- The size probe for the recording rejects; every other call succeeds. -/
def duraFailEnv : FSEnv :=
  { getInfoFails := fun u => u == "file:///rec.m4a", makeDirFails := fun _ => false,
    copyFails := fun _ _ => false, deleteFails := fun _ => false }

/-- A one-second recording: 176400 bytes at 176400 bytes per second. -/
def recRec : FileRec := { content := 1, size := 176400 }

/-- A twelve-second recording: 2116800 bytes. -/
def rec12 : FileRec := { content := 1, size := 2116800 }

def fsOneSec : FSState :=
  { files := [("file:///rec.m4a", recRec)], dirs := [tempDir] }

def fsTwelveSec : FSState :=
  { files := [("file:///rec.m4a", rec12)], dirs := [tempDir] }

/-- `segmentOutputPath "file:///rec.m4a" 7`. -/
def segPath7 : String := "file:///doc/temp_audio/segment_7.m4a"

/-- `fsOneSec` after `segmentAudio` copied the recording into the temp
directory. -/
def fsOneSecMid : FSState :=
  { files := [(segPath7, recRec), ("file:///rec.m4a", recRec)], dirs := [tempDir] }

/-- `processRecording` environment: marker at 2 s, target user found,
transcript `"hello"`, but the deepfake request rejects (timeout); the two
`Math.random()` draws behind the mock are 1/2 and 2/5. -/
def mockPassEnv : ProcEnv :=
  { fsEnv := okFSEnv, fs0 := fsOneSec, now := 7,
    callerPhraseTime := some 3000, recordingStartTime := some 1000,
    transcription := Except.ok "hello", findUser := Except.ok (some 1),
    deepfakeApi := Except.error "timeout", r1 := 1/2, r2 := 2/5,
    userId := some 2, callerName := "alice" }

/-- `processRecording` environment where everything succeeds and the
service judges the sample genuine with confidence 0.9. -/
def happyEnv : ProcEnv :=
  { fsEnv := okFSEnv, fs0 := fsOneSec, now := 7,
    callerPhraseTime := some 3000, recordingStartTime := some 1000,
    transcription := Except.ok "hello", findUser := Except.ok (some 1),
    deepfakeApi := Except.ok (some { prediction := false, confidence := 9/10 }),
    r1 := 1/2, r2 := 2/5, userId := some 2, callerName := "alice" }

/-- `processRecording` environment where only the Whisper transcription
rejects (e.g. the API key is not configured, so `transcribeAudio`
rethrows). -/
def whisperFailEnv : ProcEnv :=
  { fsEnv := okFSEnv, fs0 := fsOneSec, now := 7,
    callerPhraseTime := some 3000, recordingStartTime := some 1000,
    transcription := Except.error "Transcription failed: OpenAI API key not configured",
    findUser := Except.ok (some 1),
    deepfakeApi := Except.ok (some { prediction := false, confidence := 9/10 }),
    r1 := 1/2, r2 := 2/5, userId := some 2, callerName := "alice" }

/-- `handleRecordingComplete` environment where everything succeeds. -/
def hrcHappyEnv : HrcEnv :=
  { fsEnv := okFSEnv, fs0 := fsOneSec, now := 7, targetUserId := some 1,
    transcription := Except.ok "hello",
    verifyApi := Except.ok { prediction := false, confidence := 9/10 },
    userId := some 2, callerName := "alice" }

/-- `handleRecordingComplete` environment where only the Whisper
transcription rejects. -/
def hrcWhisperFailEnv : HrcEnv :=
  { fsEnv := okFSEnv, fs0 := fsOneSec, now := 7, targetUserId := some 1,
    transcription := Except.error "Transcription failed: OpenAI API key not configured",
    verifyApi := Except.ok { prediction := false, confidence := 9/10 },
    userId := some 2, callerName := "alice" }

/-! ## Basic evaluation and inversion lemmas -/

theorem getInfoAsync_eval (env : FSEnv) (fs : FSState) (uri : String) (r : FileRec)
    (h1 : env.getInfoFails uri = false) (h2 : fs.files.lookup uri = some r) :
    getInfoAsync env fs uri = Except.ok { exists_ := true, size := r.size } := by
  simp [getInfoAsync, h1, h2]

theorem getAudioDuration_eval (env : FSEnv) (fs : FSState) (uri : String) (r : FileRec)
    (h1 : env.getInfoFails uri = false) (h2 : fs.files.lookup uri = some r)
    (h3 : r.size ≠ 0) :
    getAudioDuration env fs uri = (r.size : ℚ) / 176400 := by
  have hnn : (0 : ℚ) ≤ (r.size : ℚ) / 176400 := by positivity
  rw [getAudioDuration, getInfoAsync_eval env fs uri r h1 h2]
  simp [h3, max_eq_left hnn]

theorem ensureTempDirectory_of_dir (env : FSEnv) (fs : FSState)
    (h1 : env.getInfoFails tempDir = false)
    (h2 : fs.files.lookup tempDir = none) (h3 : fs.dirs.contains tempDir = true) :
    ensureTempDirectory env fs = Except.ok (tempDir, fs) := by
  have h3' : tempDir ∈ fs.dirs := by simpa using h3
  simp [ensureTempDirectory, getInfoAsync, h1, h2, h3']

theorem copyAsync_ok (env : FSEnv) (fs : FSState) (src dst : String) (r : FileRec)
    (h1 : env.copyFails src dst = false) (h2 : fs.files.lookup src = some r) :
    copyAsync env fs src dst = Except.ok { fs with files := (dst, r) :: fs.files } := by
  simp [copyAsync, h1, h2]

theorem getAudioDuration_push (env : FSEnv) (fs : FSState) (k : String) (v : FileRec)
    (uri : String) (hne : uri ≠ k) :
    getAudioDuration env { fs with files := (k, v) :: fs.files } uri =
      getAudioDuration env fs uri := by
  have hbe : (uri == k) = false := beq_eq_false_iff_ne.mpr hne
  simp [getAudioDuration, getInfoAsync, List.lookup, hbe]

theorem segmentAudio_ok (env : FSEnv) (fs fs1 : FSState) (uri : String)
    (s : ℚ) (e : Option ℚ) (now : Nat) (r : FileRec)
    (hens : ensureTempDirectory env fs = Except.ok (tempDir, fs1))
    (hcp : env.copyFails uri (segmentOutputPath uri now) = false)
    (hsrc : fs1.files.lookup uri = some r)
    (hne : uri ≠ segmentOutputPath uri now) :
    segmentAudio env fs uri s e now =
      (some { uri := segmentOutputPath uri now,
              duration := segmentDurationOf s e (getAudioDuration env fs1 uri) },
       { fs1 with files := (segmentOutputPath uri now, r) :: fs1.files }) := by
  have hout : tempDir ++ "segment_" ++ toString now ++ "." ++ lastExt uri =
      segmentOutputPath uri now := rfl
  rw [segmentAudio, hens]
  simp only [hout, copyAsync_ok env fs1 uri (segmentOutputPath uri now) r hcp hsrc]
  rw [getAudioDuration_push env fs1 (segmentOutputPath uri now) r uri hne]

theorem ensureTempDirectory_ok_inv (env : FSEnv) (fs fs1 : FSState) (td : String)
    (h : ensureTempDirectory env fs = Except.ok (td, fs1)) :
    td = tempDir ∧ fs1.files = fs.files := by
  unfold ensureTempDirectory at h
  cases hg : getInfoAsync env fs tempDir with
  | error e => rw [hg] at h; exact absurd h (by simp)
  | ok info =>
    rw [hg] at h
    by_cases he : info.exists_ = true
    · simp only [he, if_true] at h
      obtain ⟨h1, h2⟩ := Prod.mk.injEq .. ▸ Except.ok.injEq .. ▸ h
      exact ⟨h1.symm, by rw [← h2]⟩
    · simp only [he, if_false] at h
      unfold makeDirectoryAsync at h
      by_cases hm : env.makeDirFails tempDir = true
      · rw [if_pos hm] at h; exact absurd h (by simp)
      · rw [if_neg hm] at h
        obtain ⟨h1, h2⟩ := Prod.mk.injEq .. ▸ Except.ok.injEq .. ▸ h
        exact ⟨h1.symm, by rw [← h2]⟩

theorem copyAsync_ok_inv (env : FSEnv) (fs fs2 : FSState) (src dst : String)
    (h : copyAsync env fs src dst = Except.ok fs2) :
    ∃ r, fs.files.lookup src = some r ∧ env.copyFails src dst = false ∧
      fs2 = { fs with files := (dst, r) :: fs.files } := by
  unfold copyAsync at h
  by_cases hc : env.copyFails src dst = true
  · rw [if_pos hc] at h; exact absurd h (by simp)
  · rw [if_neg hc] at h
    cases hl : fs.files.lookup src with
    | none => rw [hl] at h; exact absurd h (by simp)
    | some r =>
      rw [hl] at h
      exact ⟨r, rfl, by simpa using hc, (Except.ok.injEq .. ▸ h).symm⟩

theorem segmentAudio_some_inv (env : FSEnv) (fs : FSState) (uri : String)
    (s : ℚ) (e : Option ℚ) (now : Nat) (seg : AudioSegment) (fs2 : FSState)
    (h : segmentAudio env fs uri s e now = (some seg, fs2)) :
    ∃ fs1 r, ensureTempDirectory env fs = Except.ok (tempDir, fs1) ∧
      fs1.files = fs.files ∧ fs1.files.lookup uri = some r ∧
      seg.uri = segmentOutputPath uri now ∧
      seg.duration = segmentDurationOf s e (getAudioDuration env fs2 uri) ∧
      fs2 = { fs1 with files := (segmentOutputPath uri now, r) :: fs1.files } := by
  unfold segmentAudio at h
  cases hens : ensureTempDirectory env fs with
  | error e' => rw [hens] at h; exact absurd h (by simp)
  | ok p =>
    obtain ⟨td, fs1⟩ := p
    obtain ⟨htd, hfiles⟩ := ensureTempDirectory_ok_inv env fs fs1 td hens
    subst htd
    rw [hens] at h
    simp only at h
    cases hcp : copyAsync env fs1 uri (tempDir ++ "segment_" ++ toString now ++ "." ++ lastExt uri) with
    | error e' => rw [hcp] at h; exact absurd h (by simp)
    | ok fs2' =>
      rw [hcp] at h
      obtain ⟨r, hr, hcf, hfs2'⟩ := copyAsync_ok_inv env fs1 fs2' uri _ hcp
      simp only [Prod.mk.injEq, Option.some.injEq] at h
      obtain ⟨hsegv, hfs2⟩ := h
      subst hfs2
      subst hsegv
      refine ⟨fs1, r, rfl, hfiles, hr, rfl, rfl, ?_⟩
      rw [hfs2']; rfl

/-! ## Preservation lemmas for the cleanup analysis -/

theorem charsLead_append (l m : List Char) : charsLead l (l ++ m) = true := by
  induction l with
  | nil => rfl
  | cons a as ih => simp [charsLead, ih]

theorem strStarts_append (p x : String) : strStarts p (p ++ x) = true := by
  unfold strStarts
  rw [show (p ++ x).toList = p.toList ++ x.toList by simp [String.toList, String.data_append]]
  exact charsLead_append p.toList x.toList

theorem lookup_filter_keep (p : String) (l : List (String × FileRec))
    (f : String × FileRec → Bool) (hf : ∀ v, f (p, v) = true) :
    (l.filter f).lookup p = l.lookup p := by
  induction l with
  | nil => rfl
  | cons kv t ih =>
    obtain ⟨k, v⟩ := kv
    by_cases hk : p = k
    · subst hk
      simp [List.filter, hf v, List.lookup, ih]
    · have hbe : (p == k) = false := beq_eq_false_iff_ne.mpr hk
      by_cases hfk : f (k, v) = true
      · simp [List.filter, hfk, List.lookup, hbe, ih]
      · simp only [Bool.not_eq_true] at hfk
        simp [List.filter, hfk, List.lookup, hbe, ih]

theorem lookup_filter_drop (q : String) (l : List (String × FileRec))
    (f : String × FileRec → Bool) (hf : ∀ v, f (q, v) = false) :
    (l.filter f).lookup q = none := by
  induction l with
  | nil => rfl
  | cons kv t ih =>
    obtain ⟨k, v⟩ := kv
    by_cases hk : q = k
    · subst hk
      simp [List.filter, hf v, ih]
    · have hbe : (q == k) = false := beq_eq_false_iff_ne.mpr hk
      by_cases hfk : f (k, v) = true
      · simp [List.filter, hfk, List.lookup, hbe, ih]
      · simp only [Bool.not_eq_true] at hfk
        simp [List.filter, hfk, List.lookup, hbe, ih]

theorem segmentOutputPath_temp (uri : String) (now : Nat) :
    strStarts tempDir (segmentOutputPath uri now) = true := by
  have : segmentOutputPath uri now =
      tempDir ++ ("segment_" ++ (toString now ++ ("." ++ lastExt uri))) := by
    simp [segmentOutputPath, String.append_assoc]
  rw [this]
  exact strStarts_append tempDir _

theorem segmentAudio_preserve (env : FSEnv) (fs : FSState) (uri : String)
    (s : ℚ) (e : Option ℚ) (now : Nat) (p : String)
    (hp : strStarts tempDir p = false) :
    ((segmentAudio env fs uri s e now).2).files.lookup p = fs.files.lookup p := by
  cases hres : segmentAudio env fs uri s e now with
  | mk o fs2 =>
    cases o with
    | none =>
      unfold segmentAudio at hres
      cases hens : ensureTempDirectory env fs with
      | error e' => rw [hens] at hres; simp only [Prod.mk.injEq] at hres; rw [← hres.2]
      | ok pr =>
        obtain ⟨td, fs1⟩ := pr
        obtain ⟨htd, hfiles⟩ := ensureTempDirectory_ok_inv env fs fs1 td hens
        subst htd
        rw [hens] at hres
        simp only at hres
        cases hcp : copyAsync env fs1 uri
            (tempDir ++ "segment_" ++ toString now ++ "." ++ lastExt uri) with
        | error e' =>
          rw [hcp] at hres
          simp only [Prod.mk.injEq] at hres
          rw [← hres.2, hfiles]
        | ok fs2' => rw [hcp] at hres; simp at hres
    | some seg =>
      obtain ⟨fs1, r, hens, hfiles, hr, hsu, hsd, hfs2⟩ :=
        segmentAudio_some_inv env fs uri s e now seg fs2 hres
      have hpne : p ≠ segmentOutputPath uri now := by
        intro hpe
        rw [hpe] at hp
        rw [segmentOutputPath_temp uri now] at hp
        exact Bool.true_eq_false ▸ hp
      have hbe : (p == segmentOutputPath uri now) = false := beq_eq_false_iff_ne.mpr hpne
      rw [hfs2]
      simp only [List.lookup, hbe]
      rw [hfiles]

theorem cleanup_preserve (fe : FSEnv) (fs : FSState) (p : String)
    (hp : strStarts tempDir p = false) :
    (cleanupTempFiles fe fs).files.lookup p = fs.files.lookup p := by
  unfold cleanupTempFiles
  cases hg : getInfoAsync fe fs tempDir with
  | error e => rfl
  | ok info =>
    by_cases he : info.exists_ = true
    · simp only [he, if_true]
      cases hd : deleteAsync fe fs tempDir with
      | error e => rfl
      | ok fs1 =>
        unfold deleteAsync at hd
        by_cases hdf : fe.deleteFails tempDir = true
        · rw [if_pos hdf] at hd; exact absurd hd (by simp)
        · rw [if_neg hdf] at hd
          simp only [Except.ok.injEq] at hd
          rw [← hd]
          exact lookup_filter_keep p fs.files _ (fun v => by simp [hp])
    · simp [he]

theorem cleanup_removes (fe : FSEnv) (fs : FSState) (q : String)
    (h1 : fe.getInfoFails tempDir = false) (h2 : fe.deleteFails tempDir = false)
    (h3 : fs.dirs.contains tempDir = true) (hq : strStarts tempDir q = true) :
    (cleanupTempFiles fe fs).files.lookup q = none := by
  unfold cleanupTempFiles getInfoAsync
  rw [h1]
  simp only [Bool.false_eq_true, if_false]
  have hdel : deleteAsync fe fs tempDir = Except.ok
      { files := fs.files.filter (fun kv => !(strStarts tempDir kv.1)),
        dirs := fs.dirs.filter (fun d => d != tempDir && !(strStarts tempDir d)) } := by
    unfold deleteAsync
    rw [h2]
    simp
  cases hl : fs.files.lookup tempDir with
  | some r =>
    simp only [hl, if_true]
    rw [hdel]
    exact lookup_filter_drop q _ _ (fun v => by simp [hq])
  | none =>
    simp only [hl, h3, if_true]
    rw [hdel]
    exact lookup_filter_drop q _ _ (fun v => by simp [hq])

/-! ## Flow-level evaluation lemmas -/

theorem processRecording_files_preserve (env : ProcEnv) (uri p : String)
    (hp : strStarts tempDir p = false) :
    (procFinalFs (processRecording env uri).1).files.lookup p = env.fs0.files.lookup p := by
  unfold processRecording
  cases hc : env.callerPhraseTime with
  | none =>
    cases hr : env.recordingStartTime with
    | none =>
      cases hu : env.findUser with
      | error msg => simp [procFinalFs]
      | ok ou =>
        cases ou with
        | none => simp [procFinalFs]
        | some tu =>
          cases ht : env.transcription with
          | error msg => simp [procFinalFs]
          | ok t => simp [procFinalFs]
    | some rst =>
      cases hu : env.findUser with
      | error msg => simp [procFinalFs]
      | ok ou =>
        cases ou with
        | none => simp [procFinalFs]
        | some tu =>
          cases ht : env.transcription with
          | error msg => simp [procFinalFs]
          | ok t => simp [procFinalFs]
  | some cpt =>
    cases hr : env.recordingStartTime with
    | none =>
      cases hu : env.findUser with
      | error msg => simp [procFinalFs]
      | ok ou =>
        cases ou with
        | none => simp [procFinalFs]
        | some tu =>
          cases ht : env.transcription with
          | error msg => simp [procFinalFs]
          | ok t => simp [procFinalFs]
    | some rst =>
      have hsp := segmentAudio_preserve env.fsEnv env.fs0 uri
        (((cpt : ℚ) - (rst : ℚ)) / 1000) none env.now p hp
      cases hs : (segmentAudio env.fsEnv env.fs0 uri
          (((cpt : ℚ) - (rst : ℚ)) / 1000) none env.now) with
      | mk o fs1 =>
        rw [hs] at hsp
        cases hu : env.findUser with
        | error msg => simp [hs, procFinalFs, hsp]
        | ok ou =>
          cases ou with
          | none => simp [hs, procFinalFs, hsp]
          | some tu =>
            cases ht : env.transcription with
            | error msg => simp [hs, procFinalFs, hsp]
            | ok t =>
              cases o with
              | none => simp [hs, procFinalFs, hsp]
              | some sg =>
                have hcl := cleanup_preserve env.fsEnv fs1 p hp
                simp [hs, procFinalFs, hcl, hsp]

theorem processRecording_eval (env : ProcEnv) (uri : String) (cpt rst : Nat)
    (seg : AudioSegment) (fs1 : FSState) (tu : Nat) (t : String)
    (hc : env.callerPhraseTime = some cpt) (hr : env.recordingStartTime = some rst)
    (hs : segmentAudio env.fsEnv env.fs0 uri (((cpt : ℚ) - (rst : ℚ)) / 1000) none env.now
        = (some seg, fs1))
    (hu : env.findUser = Except.ok (some tu))
    (ht : env.transcription = Except.ok t) :
    processRecording env uri =
      (ProcOutcome.completed
         (combineResults (some (detectDeepfake env.deepfakeApi env.r1 env.r2)) t)
         (if (combineResults (some (detectDeepfake env.deepfakeApi env.r1 env.r2)) t).match_ then
            [{ name := env.callerName, audioUri := uri, transcript := jsOrS t "",
               confidence := (combineResults (some (detectDeepfake env.deepfakeApi env.r1 env.r2)) t).confidence,
               verified := true }] else [])
         (cleanupTempFiles env.fsEnv fs1),
       [DispatchEvent.transcriptionStart uri, DispatchEvent.authenticityStart seg.uri,
        DispatchEvent.authenticityResolve, DispatchEvent.transcriptionResolve,
        DispatchEvent.reconcile]) := by
  simp only [processRecording, hc, hr, hs, hu, ht]
  simp

theorem processRecording_reset_eval (env : ProcEnv) (uri : String) (cpt rst : Nat)
    (seg : AudioSegment) (fs1 : FSState) (tu : Nat) (msg : String)
    (hc : env.callerPhraseTime = some cpt) (hr : env.recordingStartTime = some rst)
    (hs : segmentAudio env.fsEnv env.fs0 uri (((cpt : ℚ) - (rst : ℚ)) / 1000) none env.now
        = (some seg, fs1))
    (hu : env.findUser = Except.ok (some tu))
    (ht : env.transcription = Except.error msg) :
    processRecording env uri =
      (ProcOutcome.reset fs1,
       [DispatchEvent.transcriptionStart uri, DispatchEvent.authenticityStart seg.uri,
        DispatchEvent.authenticityResolve]) := by
  simp only [processRecording, hc, hr, hs, hu, ht]
  simp

theorem handleRecordingComplete_eval (env : HrcEnv) (uri : String) (tid : Nat)
    (seg : AudioSegment) (fs1 : FSState) (v : DeepfakeResponse) (t : String)
    (htgt : env.targetUserId = some tid)
    (hext : extractLast5Seconds env.fsEnv env.fs0 uri env.now = (some seg, fs1))
    (ht : env.transcription = Except.ok t)
    (hv : env.verifyApi = Except.ok v) :
    handleRecordingComplete env uri =
      (HrcOutcome.completed (mkFinalResult v (mkFinalTranscript t))
         [{ name := env.callerName, audioUri := uri, transcript := mkFinalTranscript t,
            confidence := (mkFinalResult v (mkFinalTranscript t)).confidence,
            verified := (mkFinalResult v (mkFinalTranscript t)).match_ }]
         (cleanupTempFiles env.fsEnv fs1),
       [DispatchEvent.transcriptionStart uri, DispatchEvent.transcriptionResolve,
        DispatchEvent.authenticityStart seg.uri, DispatchEvent.authenticityResolve,
        DispatchEvent.reconcile]) := by
  simp only [handleRecordingComplete, htgt, hext, ht, hv]
  simp

/-! ## Concrete evaluations -/

theorem extractLast5Seconds_short (env : FSEnv) (fs : FSState) (uri : String) (now : Nat)
    (h : getAudioDuration env fs uri ≤ 5) :
    extractLast5Seconds env fs uri now =
      (some { uri := uri, duration := getAudioDuration env fs uri }, fs) := by
  simp only [extractLast5Seconds, if_pos h]

theorem getAudioDuration_of_lookup_some (env : FSEnv) (fs : FSState) (uri : String)
    (r : FileRec) (h : fs.files.lookup uri = some r) :
    getAudioDuration env fs uri =
      if env.getInfoFails uri = true then 0
      else if r.size ≠ 0 then max ((r.size : ℚ) / 176400) 0 else 0 := by
  unfold getAudioDuration getInfoAsync
  by_cases hg : env.getInfoFails uri = true
  · simp [hg]
  · simp [hg, h, bne_iff_ne]

theorem jsOrQ_zero (a : ℚ) : jsOrQ a 0 = a := by
  by_cases h : a = 0
  · simp [jsOrQ, h]
  · simp [jsOrQ, h]

theorem jsOrB_false (b : Bool) : jsOrB b false = b := by
  cases b <;> rfl

theorem dur_fsOneSec : getAudioDuration okFSEnv fsOneSec "file:///rec.m4a" = 1 := by
  rw [getAudioDuration_eval okFSEnv fsOneSec "file:///rec.m4a" recRec
    (by decide) (by decide) (by decide)]
  norm_num [recRec]

theorem dur_fsTwelveSec : getAudioDuration okFSEnv fsTwelveSec "file:///rec.m4a" = 12 := by
  rw [getAudioDuration_eval okFSEnv fsTwelveSec "file:///rec.m4a" rec12
    (by decide) (by decide) (by decide)]
  norm_num [rec12]

theorem ensure_fsOneSec : ensureTempDirectory okFSEnv fsOneSec = Except.ok (tempDir, fsOneSec) :=
  ensureTempDirectory_of_dir okFSEnv fsOneSec (by decide) (by decide) (by decide)

theorem ensure_fsTwelveSec :
    ensureTempDirectory okFSEnv fsTwelveSec = Except.ok (tempDir, fsTwelveSec) :=
  ensureTempDirectory_of_dir okFSEnv fsTwelveSec (by decide) (by decide) (by decide)

theorem seg_fsOneSec_off2 :
    segmentAudio okFSEnv fsOneSec "file:///rec.m4a" 2 none 7 =
      (some { uri := segPath7, duration := -1 }, fsOneSecMid) := by
  rw [segmentAudio_ok okFSEnv fsOneSec fsOneSec "file:///rec.m4a" 2 none 7 recRec
    ensure_fsOneSec (by decide) (by decide) (by decide), dur_fsOneSec]
  simp only [Prod.mk.injEq, Option.some.injEq, AudioSegment.mk.injEq]
  refine ⟨⟨by decide, ?_⟩, by decide⟩
  norm_num [segmentDurationOf]

theorem cleanup_fsOneSecMid :
    cleanupTempFiles okFSEnv fsOneSecMid = { files := [("file:///rec.m4a", recRec)], dirs := [] } := by
  decide

theorem cleanup_fsOneSec :
    cleanupTempFiles okFSEnv fsOneSec = { files := [("file:///rec.m4a", recRec)], dirs := [] } := by
  decide

theorem mock_half_twofifths :
    getMockResponse (1/2) (2/5) = { prediction := false, confidence := 41/50 } := by
  unfold getMockResponse toFixed3
  have h1 : ¬((7:ℚ)/10 < 1/2) := by norm_num
  rw [if_neg h1]
  have h2 : ((2:ℚ)/5 * (3/10) + 7/10) * 1000 = ((820:ℤ) : ℚ) := by norm_num
  rw [h2, round_intCast]
  norm_num

theorem detect_timeout :
    detectDeepfake (Except.error "timeout") (1/2) (2/5) =
      { prediction := false, confidence := 41/50 } :=
  mock_half_twofifths

theorem combine_mock :
    combineResults (some { prediction := false, confidence := 41/50 }) "hello" =
      { match_ := true, confidence := 41/50, transcript := "hello", isDeepfake := false } := by
  unfold combineResults
  have hh : ("hello" : String) ≠ "" := by decide
  norm_num [jsOrQ, jsOrS, jsOrB, hh]

theorem combine_happy :
    combineResults (some { prediction := false, confidence := 9/10 }) "hello" =
      { match_ := true, confidence := 9/10, transcript := "hello", isDeepfake := false } := by
  unfold combineResults
  have hh : ("hello" : String) ≠ "" := by decide
  norm_num [jsOrQ, jsOrS, jsOrB, hh]

/-! ## Claims -/

theorem handleRecordingComplete_eval_terr (env : HrcEnv) (uri : String) (tid : Nat)
    (seg : AudioSegment) (fs1 : FSState) (v : DeepfakeResponse) (msg : String)
    (htgt : env.targetUserId = some tid)
    (hext : extractLast5Seconds env.fsEnv env.fs0 uri env.now = (some seg, fs1))
    (ht : env.transcription = Except.error msg)
    (hv : env.verifyApi = Except.ok v) :
    handleRecordingComplete env uri =
      (HrcOutcome.completed (mkFinalResult v (mkFinalTranscript "Transcription failed"))
         [{ name := env.callerName, audioUri := uri,
            transcript := mkFinalTranscript "Transcription failed",
            confidence := (mkFinalResult v (mkFinalTranscript "Transcription failed")).confidence,
            verified := (mkFinalResult v (mkFinalTranscript "Transcription failed")).match_ }]
         (cleanupTempFiles env.fsEnv fs1),
       [DispatchEvent.transcriptionStart uri, DispatchEvent.transcriptionResolve,
        DispatchEvent.authenticityStart seg.uri, DispatchEvent.authenticityResolve,
        DispatchEvent.reconcile]) := by
  simp only [handleRecordingComplete, htgt, hext, ht, hv]
  simp

/-- C2 (confirmed): a successful authenticity result `{prediction,
confidence}` passes through `detectDeepfake` unchanged, and both result
builders negate `prediction` into the verdict while passing `confidence`
and the transcript through unchanged; the spec-level partial flag is
false. -/
theorem claim_C2 (r : DeepfakeResponse) (t : String) (r1 r2 : ℚ) (ht : t ≠ "") :
    detectDeepfake (Except.ok (some r)) r1 r2 = r ∧
    (combineResults (some r) t).match_ = !r.prediction ∧
    (combineResults (some r) t).confidence = r.confidence ∧
    (combineResults (some r) t).transcript = t ∧
    degradedOutcome (some r) = false ∧
    (mkFinalResult r t).match_ = !r.prediction ∧
    (mkFinalResult r t).confidence = r.confidence := by
  refine ⟨rfl, rfl, jsOrQ_zero r.confidence, ?_, rfl,
    jsOrB_false (!r.prediction), jsOrQ_zero r.confidence⟩
  simp [combineResults, jsOrS, ht]

/-- C2 witness: the spec's worked example — `prediction = true`,
`confidence = 82`, transcript `"hello"` gives verdict `false`,
confidence 82, transcript `"hello"`, not partial. -/
theorem claim_C2_witness :
    ("hello" : String) ≠ "" ∧
    (combineResults (some { prediction := true, confidence := 82 }) "hello").match_ = false ∧
    (combineResults (some { prediction := true, confidence := 82 }) "hello").confidence = 82 ∧
    (combineResults (some { prediction := true, confidence := 82 }) "hello").transcript = "hello" ∧
    degradedOutcome (some { prediction := true, confidence := 82 }) = false := by
  have h := claim_C2 { prediction := true, confidence := 82 } "hello" 0 0 (by decide)
  exact ⟨by decide, h.2.1, h.2.2.1, h.2.2.2.1, h.2.2.2.2.1⟩

/-- C4 (confirmed): for an artifact whose estimated duration is at most 5
units, `extractLast5Seconds` returns the artifact itself with that
duration and leaves the file system untouched (no copy). -/
theorem claim_C4 (env : FSEnv) (fs : FSState) (uri : String) (now : Nat)
    (h : getAudioDuration env fs uri ≤ 5) :
    extractLast5Seconds env fs uri now =
      (some { uri := uri, duration := getAudioDuration env fs uri }, fs) :=
  extractLast5Seconds_short env fs uri now h

/-- C4 witness: the one-second recording is returned identically. -/
theorem claim_C4_witness :
    getAudioDuration okFSEnv fsOneSec "file:///rec.m4a" ≤ 5 ∧
    extractLast5Seconds okFSEnv fsOneSec "file:///rec.m4a" 7 =
      (some { uri := "file:///rec.m4a",
              duration := getAudioDuration okFSEnv fsOneSec "file:///rec.m4a" },
       fsOneSec) := by
  have hle : getAudioDuration okFSEnv fsOneSec "file:///rec.m4a" ≤ 5 := by
    rw [dur_fsOneSec]; norm_num
  exact ⟨hle, claim_C4 okFSEnv fsOneSec "file:///rec.m4a" 7 hle⟩

/-- C7 counterexample: the "recording subject" (`caller-speaking`) signal
first surfaces on the third tick of the countdown, 3 time units in — not
at the two-thirds mark of the 8-unit countdown (16/3 units in; indeed
3 ≠ 2/3 · 8). -/
theorem claim_C7_counterexample :
    (runTicks 2).callerSpeaking = false ∧ (runTicks 3).callerSpeaking = true ∧
    ((3 : ℚ) ≠ (2/3) * 8) :=
  ⟨by decide, by decide, by norm_num⟩

/-- C7 (corrected): the countdown starts at 8 units; the
`caller-speaking` signal surfaces exactly 3 units in (when the counter
reads 6), not at the two-thirds mark; the interval stops the recording at
tick 8 and not before; and a stop that yields a URI moves the session to
processing on that URI. -/
theorem claim_C7_amended (uri : String) :
    countdownStart.countdown = 8 ∧
    ((List.range 3).all fun n => !(runTicks n).callerSpeaking) = true ∧
    (runTicks 3).callerSpeaking = true ∧
    ((List.range 8).all fun n => !(runTicks n).stopped) = true ∧
    (runTicks 8).stopped = true ∧ (runTicks 8).countdown = 0 ∧
    handleStopRecording (Except.ok (some uri)) = StopOutcome.processing uri :=
  ⟨rfl, by decide, by decide, by decide, by decide, by decide, rfl⟩

/-- C1 (corrected): a deepfake-service failure (rejection or malformed
body) never surfaces as a failed leg — `detectDeepfake` substitutes the
random mock response; only when no detection ran at all
(`deepfakeResult = null`) does the combined outcome carry verdict
`false`, confidence 0, and the spec-level partial flag. -/
theorem claim_C1_amended (msg : String) (r1 r2 : ℚ) (t : String) :
    detectDeepfake (Except.error msg) r1 r2 = getMockResponse r1 r2 ∧
    detectDeepfake (Except.ok none) r1 r2 = getMockResponse r1 r2 ∧
    (combineResults none t).match_ = false ∧
    (combineResults none t).confidence = 0 ∧
    degradedOutcome none = true :=
  ⟨rfl, rfl, rfl, rfl, rfl⟩

/-- C1 counterexample: a session whose deepfake request times out still
completes with `match = true` and confidence 41/50 (the mock draw), not
with verdict `false` and confidence 0 — an absent authenticity verdict is
reported as a pass. -/
theorem claim_C1_counterexample :
    mockPassEnv.deepfakeApi = Except.error "timeout" ∧
    (procResult (processRecording mockPassEnv "file:///rec.m4a").1).map
      VerificationResult.match_ = some true ∧
    (procResult (processRecording mockPassEnv "file:///rec.m4a").1).map
      VerificationResult.confidence = some (41/50) := by
  have hs : segmentAudio mockPassEnv.fsEnv mockPassEnv.fs0 "file:///rec.m4a"
      ((((3000 : Nat) : ℚ) - ((1000 : Nat) : ℚ)) / 1000) none mockPassEnv.now =
      (some { uri := segPath7, duration := -1 }, fsOneSecMid) := by
    rw [show ((((3000 : Nat) : ℚ) - ((1000 : Nat) : ℚ)) / 1000) = 2 by norm_num]
    exact seg_fsOneSec_off2
  have heval := processRecording_eval mockPassEnv "file:///rec.m4a" 3000 1000
    { uri := segPath7, duration := -1 } fsOneSecMid 1 "hello" rfl rfl hs rfl rfl
  have hd : detectDeepfake mockPassEnv.deepfakeApi mockPassEnv.r1 mockPassEnv.r2 =
      { prediction := false, confidence := 41/50 } := detect_timeout
  refine ⟨rfl, ?_, ?_⟩ <;>
    rw [heval] <;> simp [procResult, hd, combine_mock]

/-- C3 (code bug): `processRecording` awaits the transcript promise with
no rejection handler, and `transcribeAudio` rethrows every failure, so a
transcription failure aborts the whole session (`resetToInitial`) and no
outcome is delivered — even though the dead `transcript ||
'Transcription failed'` fallback and the sibling
`handleRecordingComplete` flow (which catches the rejection and completes
with the `'Transcription unavailable'` sentinel) both show the intended
behaviour. -/
theorem claim_C3_code_bug :
    whisperFailEnv.transcription =
      Except.error "Transcription failed: OpenAI API key not configured" ∧
    (processRecording whisperFailEnv "file:///rec.m4a").1 = ProcOutcome.reset fsOneSecMid ∧
    procIsCompleted (processRecording whisperFailEnv "file:///rec.m4a").1 = false ∧
    procResult (processRecording whisperFailEnv "file:///rec.m4a").1 = none ∧
    hrcIsCompleted (handleRecordingComplete hrcWhisperFailEnv "file:///rec.m4a").1 = true ∧
    (hrcResult (handleRecordingComplete hrcWhisperFailEnv "file:///rec.m4a").1).map
      FinalResult.transcript = some "Transcription unavailable" := by
  have hs : segmentAudio whisperFailEnv.fsEnv whisperFailEnv.fs0 "file:///rec.m4a"
      ((((3000 : Nat) : ℚ) - ((1000 : Nat) : ℚ)) / 1000) none whisperFailEnv.now =
      (some { uri := segPath7, duration := -1 }, fsOneSecMid) := by
    rw [show ((((3000 : Nat) : ℚ) - ((1000 : Nat) : ℚ)) / 1000) = 2 by norm_num]
    exact seg_fsOneSec_off2
  have heval := processRecording_reset_eval whisperFailEnv "file:///rec.m4a" 3000 1000
    { uri := segPath7, duration := -1 } fsOneSecMid 1
    "Transcription failed: OpenAI API key not configured" rfl rfl hs rfl rfl
  have hext : extractLast5Seconds hrcWhisperFailEnv.fsEnv hrcWhisperFailEnv.fs0
      "file:///rec.m4a" hrcWhisperFailEnv.now =
      (some { uri := "file:///rec.m4a", duration := 1 }, fsOneSec) := by
    have h := extractLast5Seconds_short okFSEnv fsOneSec "file:///rec.m4a" 7
      (by rw [dur_fsOneSec]; norm_num)
    rw [dur_fsOneSec] at h
    exact h
  have heval2 := handleRecordingComplete_eval_terr hrcWhisperFailEnv "file:///rec.m4a" 1
    { uri := "file:///rec.m4a", duration := 1 } fsOneSec
    { prediction := false, confidence := 9/10 }
    "Transcription failed: OpenAI API key not configured" rfl hext rfl rfl
  refine ⟨rfl, by rw [heval], by rw [heval]; rfl, by rw [heval]; rfl,
    by rw [heval2]; rfl, by rw [heval2]; rfl⟩

theorem segmentAudio_some_duration (env : FSEnv) (fs : FSState) (uri : String)
    (s : ℚ) (e : Option ℚ) (now : Nat) (seg : AudioSegment) (fs2 : FSState)
    (hne : uri ≠ segmentOutputPath uri now)
    (h : segmentAudio env fs uri s e now = (some seg, fs2)) :
    seg.duration = segmentDurationOf s e (getAudioDuration env fs uri) := by
  obtain ⟨fs1, r, hens, hfiles, hr, hsu, hsd, hfs2⟩ :=
    segmentAudio_some_inv env fs uri s e now seg fs2 h
  have h2 : getAudioDuration env fs2 uri = getAudioDuration env fs1 uri := by
    rw [hfs2]; exact getAudioDuration_push env fs1 _ r uri hne
  have h3 : getAudioDuration env fs1 uri = getAudioDuration env fs uri := by
    rw [getAudioDuration_of_lookup_some env fs1 uri r hr,
        getAudioDuration_of_lookup_some env fs uri r (hfiles ▸ hr)]
  rw [hsd, h2, h3]

theorem extract_fsOneSec :
    extractLast5Seconds okFSEnv fsOneSec "file:///rec.m4a" 7 =
      (some { uri := "file:///rec.m4a", duration := 1 }, fsOneSec) := by
  have h := extractLast5Seconds_short okFSEnv fsOneSec "file:///rec.m4a" 7
    (by rw [dur_fsOneSec]; norm_num)
  rw [dur_fsOneSec] at h
  exact h

/-- C5 (confirmed): for an artifact longer than 5 units, end-anchored
extraction yields a segment of duration exactly 5 (the start it passes,
`total - 5`, equals `max 0 (total - 5)`); offset-anchored extraction at
marker offset `t` yields duration `min 5 (total - t)`. -/
theorem claim_C5 (env : FSEnv) (fs : FSState) (uri : String) (now : Nat)
    (hne : uri ≠ segmentOutputPath uri now) :
    (∀ seg fs2, 5 < getAudioDuration env fs uri →
       extractLast5Seconds env fs uri now = (some seg, fs2) →
       seg.duration = 5 ∧
       getAudioDuration env fs uri - 5 = max 0 (getAudioDuration env fs uri - 5)) ∧
    (∀ t seg fs2, segmentAudio env fs uri t none now = (some seg, fs2) →
       seg.duration = min 5 (getAudioDuration env fs uri - t)) := by
  constructor
  · intro seg fs2 hd hx
    unfold extractLast5Seconds at hx
    rw [if_neg (not_le.mpr hd)] at hx
    have hdur := segmentAudio_some_duration env fs uri
      (getAudioDuration env fs uri - 5) (some (getAudioDuration env fs uri)) now seg fs2 hne hx
    have hd0 : getAudioDuration env fs uri ≠ 0 := by
      intro h0; rw [h0] at hd; norm_num at hd
    constructor
    · rw [hdur]
      show (if getAudioDuration env fs uri ≠ 0 then
          min (getAudioDuration env fs uri - (getAudioDuration env fs uri - 5))
            (getAudioDuration env fs uri - (getAudioDuration env fs uri - 5))
        else min 5 (getAudioDuration env fs uri - (getAudioDuration env fs uri - 5))) = 5
      rw [if_pos hd0]
      have h5 : getAudioDuration env fs uri - (getAudioDuration env fs uri - 5) = 5 := by ring
      rw [h5, min_self]
    · exact (max_eq_right (by linarith)).symm
  · intro t seg fs2 hx
    exact segmentAudio_some_duration env fs uri t none now seg fs2 hne hx

/-- C5 witness: the spec's worked example, a 12-unit artifact. -/
theorem claim_C5_witness :
    (5 : ℚ) < getAudioDuration okFSEnv fsTwelveSec "file:///rec.m4a" ∧
    "file:///rec.m4a" ≠ segmentOutputPath "file:///rec.m4a" 7 ∧
    ((extractLast5Seconds okFSEnv fsTwelveSec "file:///rec.m4a" 7).1.map
      AudioSegment.duration = some 5) ∧
    ((segmentAudio okFSEnv fsTwelveSec "file:///rec.m4a" 2 none 7).1.map
      AudioSegment.duration =
      some (min 5 (getAudioDuration okFSEnv fsTwelveSec "file:///rec.m4a" - 2))) := by
  have hne : "file:///rec.m4a" ≠ segmentOutputPath "file:///rec.m4a" 7 := by decide
  have hd : (5 : ℚ) < getAudioDuration okFSEnv fsTwelveSec "file:///rec.m4a" := by
    rw [dur_fsTwelveSec]; norm_num
  obtain ⟨hA, hB⟩ := claim_C5 okFSEnv fsTwelveSec "file:///rec.m4a" 7 hne
  have hseg := segmentAudio_ok okFSEnv fsTwelveSec fsTwelveSec "file:///rec.m4a"
    (getAudioDuration okFSEnv fsTwelveSec "file:///rec.m4a" - 5)
    (some (getAudioDuration okFSEnv fsTwelveSec "file:///rec.m4a")) 7 rec12
    ensure_fsTwelveSec (by decide) (by decide) hne
  have hx : extractLast5Seconds okFSEnv fsTwelveSec "file:///rec.m4a" 7 =
      (some { uri := segmentOutputPath "file:///rec.m4a" 7,
              duration := segmentDurationOf
                (getAudioDuration okFSEnv fsTwelveSec "file:///rec.m4a" - 5)
                (some (getAudioDuration okFSEnv fsTwelveSec "file:///rec.m4a"))
                (getAudioDuration okFSEnv fsTwelveSec "file:///rec.m4a") },
       { fsTwelveSec with
         files := (segmentOutputPath "file:///rec.m4a" 7, rec12) :: fsTwelveSec.files }) := by
    unfold extractLast5Seconds
    rw [if_neg (not_le.mpr hd)]
    exact hseg
  obtain ⟨h5, _⟩ := hA _ _ hd hx
  have h5' : segmentDurationOf
      (getAudioDuration okFSEnv fsTwelveSec "file:///rec.m4a" - 5)
      (some (getAudioDuration okFSEnv fsTwelveSec "file:///rec.m4a"))
      (getAudioDuration okFSEnv fsTwelveSec "file:///rec.m4a") = 5 := h5
  have hseg2 := segmentAudio_ok okFSEnv fsTwelveSec fsTwelveSec "file:///rec.m4a"
    2 none 7 rec12 ensure_fsTwelveSec (by decide) (by decide) hne
  have h4 := hB 2 _ _ hseg2
  have h4' : segmentDurationOf 2 none (getAudioDuration okFSEnv fsTwelveSec "file:///rec.m4a") =
      min 5 (getAudioDuration okFSEnv fsTwelveSec "file:///rec.m4a" - 2) := h4
  refine ⟨hd, hne, ?_, ?_⟩
  · rw [hx]; simp [h5']
  · rw [hseg2]; simp [h4']

/-- C10 (confirmed): on success `segmentAudio` writes the segment at the
temp output path and its content there is exactly the full original
recording's content (the `copyAsync` of the whole file) — nothing is
trimmed, only the duration metadata is bounded. -/
theorem claim_C10 (env : FSEnv) (fs : FSState) (uri : String)
    (s : ℚ) (e : Option ℚ) (now : Nat) (seg : AudioSegment) (fs2 : FSState)
    (h : segmentAudio env fs uri s e now = (some seg, fs2)) :
    seg.uri = segmentOutputPath uri now ∧
    fs2.files.lookup seg.uri = fs.files.lookup uri := by
  obtain ⟨fs1, r, hens, hfiles, hr, hsu, hsd, hfs2⟩ :=
    segmentAudio_some_inv env fs uri s e now seg fs2 h
  refine ⟨hsu, ?_⟩
  rw [hfs2, hsu]
  calc (((segmentOutputPath uri now, r) :: fs1.files).lookup (segmentOutputPath uri now))
      = some r := by simp [List.lookup]
    _ = fs.files.lookup uri := (hfiles ▸ hr).symm

/-- C10 witness: the copied segment of the one-second recording holds the
same content record as the original. -/
theorem claim_C10_witness :
    ∃ seg fs2, segmentAudio okFSEnv fsOneSec "file:///rec.m4a" 2 none 7 = (some seg, fs2) ∧
      fs2.files.lookup seg.uri = fsOneSec.files.lookup "file:///rec.m4a" :=
  ⟨_, _, seg_fsOneSec_off2,
    (claim_C10 okFSEnv fsOneSec "file:///rec.m4a" 2 none 7 _ _ seg_fsOneSec_off2).2⟩

/-- C6 (corrected): `segmentAudio` returns `null` exactly when the
temp-directory setup or the whole-file copy fails, and
`extractLast5Seconds` returns `null` exactly when the artifact is long
and the inner `segmentAudio` does; a failing size probe is swallowed
inside duration estimation and does not produce `null`.  The embedding is
total, so no exception crosses the boundary. -/
theorem claim_C6_amended (env : FSEnv) (fs : FSState) (uri : String)
    (s : ℚ) (e : Option ℚ) (now : Nat) :
    ((segmentAudio env fs uri s e now).1 = none ↔
      isOkE (ensureTempDirectory env fs) = false ∨
      ∃ fs1, ensureTempDirectory env fs = Except.ok (tempDir, fs1) ∧
        isOkE (copyAsync env fs1 uri (segmentOutputPath uri now)) = false) ∧
    ((extractLast5Seconds env fs uri now).1 = none ↔
      5 < getAudioDuration env fs uri ∧
      (segmentAudio env fs uri (getAudioDuration env fs uri - 5)
        (some (getAudioDuration env fs uri)) now).1 = none) := by
  constructor
  · constructor
    · intro hnone
      unfold segmentAudio at hnone
      cases hens : ensureTempDirectory env fs with
      | error e' => left; rfl
      | ok p =>
        obtain ⟨td, fs1⟩ := p
        obtain ⟨htd, _⟩ := ensureTempDirectory_ok_inv env fs fs1 td hens
        subst htd
        rw [hens] at hnone
        simp only at hnone
        right
        refine ⟨fs1, rfl, ?_⟩
        show isOkE (copyAsync env fs1 uri
          (tempDir ++ "segment_" ++ toString now ++ "." ++ lastExt uri)) = false
        cases hcp : copyAsync env fs1 uri
            (tempDir ++ "segment_" ++ toString now ++ "." ++ lastExt uri) with
        | error e' => rfl
        | ok fs2' => rw [hcp] at hnone; simp at hnone
    · intro hor
      rcases hor with h1 | ⟨fs1, hens, hcp⟩
      · unfold segmentAudio
        cases hens : ensureTempDirectory env fs with
        | error e' => rfl
        | ok p => rw [hens] at h1; simp [isOkE] at h1
      · unfold segmentAudio
        rw [hens]
        simp only
        cases hcp2 : copyAsync env fs1 uri
            (tempDir ++ "segment_" ++ toString now ++ "." ++ lastExt uri) with
        | error e' => rfl
        | ok fs2' =>
          rw [show segmentOutputPath uri now =
            tempDir ++ "segment_" ++ toString now ++ "." ++ lastExt uri from rfl] at hcp
          rw [hcp2] at hcp
          simp [isOkE] at hcp
  · constructor
    · intro hnone
      by_cases hle : getAudioDuration env fs uri ≤ 5
      · rw [extractLast5Seconds_short env fs uri now hle] at hnone
        simp at hnone
      · refine ⟨not_le.mp hle, ?_⟩
        unfold extractLast5Seconds at hnone
        rw [if_neg hle] at hnone
        exact hnone
    · rintro ⟨hgt, hnone⟩
      unfold extractLast5Seconds
      rw [if_neg (not_le.mpr hgt)]
      exact hnone

/-- C6 counterexample: with a file system where the size probe for the
recording rejects but directory setup and copy succeed, `segmentAudio`
still returns a segment (built on a 0 duration estimate) — a failing
file-system operation that does not yield `null`. -/
theorem claim_C6_counterexample :
    duraFailEnv.getInfoFails "file:///rec.m4a" = true ∧
    (segmentAudio duraFailEnv fsOneSec "file:///rec.m4a" 0 none 7).1.isSome = true := by
  constructor
  · decide
  · have hens : ensureTempDirectory duraFailEnv fsOneSec = Except.ok (tempDir, fsOneSec) :=
      ensureTempDirectory_of_dir duraFailEnv fsOneSec (by decide) (by decide) (by decide)
    rw [segmentAudio_ok duraFailEnv fsOneSec fsOneSec "file:///rec.m4a" 0 none 7 recRec
      hens (by decide) (by decide) (by decide)]
    rfl

/-- C8 (corrected): after any `processRecording` run, every path outside
the temp directory — in particular the full recording artifact — is
untouched in the file system; the cleanup, when its calls succeed and the
temp directory exists, removes exactly the files under the temp
directory (the extracted segments).  The full RecordingArtifact is never
deleted. -/
theorem claim_C8_amended :
    (∀ (env : ProcEnv) (uri p : String), strStarts tempDir p = false →
       (procFinalFs (processRecording env uri).1).files.lookup p =
         env.fs0.files.lookup p) ∧
    (∀ (fe : FSEnv) (fs : FSState) (q : String),
       fe.getInfoFails tempDir = false → fe.deleteFails tempDir = false →
       fs.dirs.contains tempDir = true → strStarts tempDir q = true →
       (cleanupTempFiles fe fs).files.lookup q = none) :=
  ⟨processRecording_files_preserve, cleanup_removes⟩

/-- C8 witness: on the fully successful concrete session, the recording
artifact's entry is untouched, and the copied segment file is removed by
the cleanup. -/
theorem claim_C8_amended_witness :
    strStarts tempDir "file:///rec.m4a" = false ∧
    (procFinalFs (processRecording happyEnv "file:///rec.m4a").1).files.lookup
      "file:///rec.m4a" = happyEnv.fs0.files.lookup "file:///rec.m4a" ∧
    okFSEnv.getInfoFails tempDir = false ∧ okFSEnv.deleteFails tempDir = false ∧
    fsOneSecMid.dirs.contains tempDir = true ∧ strStarts tempDir segPath7 = true ∧
    (cleanupTempFiles okFSEnv fsOneSecMid).files.lookup segPath7 = none :=
  ⟨by decide, claim_C8_amended.1 happyEnv "file:///rec.m4a" "file:///rec.m4a" (by decide),
   by decide, by decide, by decide, by decide,
   claim_C8_amended.2 okFSEnv fsOneSecMid segPath7 (by decide) (by decide) (by decide)
     (by decide)⟩

/-- C8 counterexample: a session that completes still leaves the full
recording artifact addressable in the file system, and (the verdict being
a match) even stores its URI in the saved-call list — the claim that no
RecordingArtifact of the session remains addressable after the terminal
state is false. -/
theorem claim_C8_counterexample :
    procIsCompleted (processRecording happyEnv "file:///rec.m4a").1 = true ∧
    (procFinalFs (processRecording happyEnv "file:///rec.m4a").1).files.lookup
      "file:///rec.m4a" = some recRec ∧
    (procSaved (processRecording happyEnv "file:///rec.m4a").1).map SavedCall.audioUri =
      ["file:///rec.m4a"] := by
  have hs : segmentAudio happyEnv.fsEnv happyEnv.fs0 "file:///rec.m4a"
      ((((3000 : Nat) : ℚ) - ((1000 : Nat) : ℚ)) / 1000) none happyEnv.now =
      (some { uri := segPath7, duration := -1 }, fsOneSecMid) := by
    rw [show ((((3000 : Nat) : ℚ) - ((1000 : Nat) : ℚ)) / 1000) = 2 by norm_num]
    exact seg_fsOneSec_off2
  have heval := processRecording_eval happyEnv "file:///rec.m4a" 3000 1000
    { uri := segPath7, duration := -1 } fsOneSecMid 1 "hello" rfl rfl hs rfl rfl
  have hd : detectDeepfake happyEnv.deepfakeApi happyEnv.r1 happyEnv.r2 =
      { prediction := false, confidence := 9/10 } := rfl
  refine ⟨?_, ?_, ?_⟩ <;> rw [heval] <;>
    simp [procIsCompleted, procFinalFs, procSaved, hd, combine_happy,
      cleanup_fsOneSecMid, List.lookup]

/-- C9 (corrected): in both flows the outcome is computed only after both
legs have resolved (no first-result-wins), the transcription request
targets the full recording and the authenticity request targets the
extracted segment; the two legs overlap in `processRecording`
(transcription issued first, awaited last), but in
`handleRecordingComplete` the transcription leg resolves at the
`Promise.all` join before the authenticity request is even issued — there
the legs are sequential, not concurrent. -/
theorem claim_C9_amended :
    (∀ (env : ProcEnv) (uri : String) (cpt rst : Nat) (seg : AudioSegment)
       (fs1 : FSState) (tu : Nat) (t : String),
       env.callerPhraseTime = some cpt → env.recordingStartTime = some rst →
       segmentAudio env.fsEnv env.fs0 uri (((cpt : ℚ) - (rst : ℚ)) / 1000) none env.now
         = (some seg, fs1) →
       env.findUser = Except.ok (some tu) → env.transcription = Except.ok t →
       (processRecording env uri).2 =
         [DispatchEvent.transcriptionStart uri, DispatchEvent.authenticityStart seg.uri,
          DispatchEvent.authenticityResolve, DispatchEvent.transcriptionResolve,
          DispatchEvent.reconcile] ∧
       legsOverlap (processRecording env uri).2 = true ∧
       reconcileAfterBothLegs (processRecording env uri).2 = true) ∧
    (∀ (env : HrcEnv) (uri : String) (tid : Nat) (seg : AudioSegment) (fs1 : FSState)
       (v : DeepfakeResponse) (t : String),
       env.targetUserId = some tid →
       extractLast5Seconds env.fsEnv env.fs0 uri env.now = (some seg, fs1) →
       env.transcription = Except.ok t → env.verifyApi = Except.ok v →
       (handleRecordingComplete env uri).2 =
         [DispatchEvent.transcriptionStart uri, DispatchEvent.transcriptionResolve,
          DispatchEvent.authenticityStart seg.uri, DispatchEvent.authenticityResolve,
          DispatchEvent.reconcile] ∧
       reconcileAfterBothLegs (handleRecordingComplete env uri).2 = true ∧
       legsOverlap (handleRecordingComplete env uri).2 = false) := by
  constructor
  · intro env uri cpt rst seg fs1 tu t hc hr hs hu ht
    have heval := processRecording_eval env uri cpt rst seg fs1 tu t hc hr hs hu ht
    rw [heval]
    exact ⟨rfl, rfl, rfl⟩
  · intro env uri tid seg fs1 v t htgt hext ht hv
    have heval := handleRecordingComplete_eval env uri tid seg fs1 v t htgt hext ht hv
    rw [heval]
    exact ⟨rfl, rfl, rfl⟩

/-- C9 witness: the two concrete sessions, instantiating both parts. -/
theorem claim_C9_witness :
    legsOverlap (processRecording happyEnv "file:///rec.m4a").2 = true ∧
    reconcileAfterBothLegs (processRecording happyEnv "file:///rec.m4a").2 = true ∧
    reconcileAfterBothLegs (handleRecordingComplete hrcHappyEnv "file:///rec.m4a").2 = true ∧
    legsOverlap (handleRecordingComplete hrcHappyEnv "file:///rec.m4a").2 = false := by
  have hs : segmentAudio happyEnv.fsEnv happyEnv.fs0 "file:///rec.m4a"
      ((((3000 : Nat) : ℚ) - ((1000 : Nat) : ℚ)) / 1000) none happyEnv.now =
      (some { uri := segPath7, duration := -1 }, fsOneSecMid) := by
    rw [show ((((3000 : Nat) : ℚ) - ((1000 : Nat) : ℚ)) / 1000) = 2 by norm_num]
    exact seg_fsOneSec_off2
  have h1 := claim_C9_amended.1 happyEnv "file:///rec.m4a" 3000 1000
    { uri := segPath7, duration := -1 } fsOneSecMid 1 "hello" rfl rfl hs rfl rfl
  have hext : extractLast5Seconds hrcHappyEnv.fsEnv hrcHappyEnv.fs0 "file:///rec.m4a"
      hrcHappyEnv.now = (some { uri := "file:///rec.m4a", duration := 1 }, fsOneSec) :=
    extract_fsOneSec
  have h2 := claim_C9_amended.2 hrcHappyEnv "file:///rec.m4a" 1
    { uri := "file:///rec.m4a", duration := 1 } fsOneSec
    { prediction := false, confidence := 9/10 } "hello" rfl hext rfl rfl
  exact ⟨h1.2.1, h1.2.2, h2.2.1, h2.2.2⟩

/-- C9 counterexample: in the `handleRecordingComplete` flow a processed
recording's two legs do not run concurrently — the transcription leg has
already resolved when the authenticity request is issued — refuting the
claim's universal concurrency statement (both legs do still resolve
before reconciliation). -/
theorem claim_C9_counterexample :
    hrcIsCompleted (handleRecordingComplete hrcHappyEnv "file:///rec.m4a").1 = true ∧
    reconcileAfterBothLegs (handleRecordingComplete hrcHappyEnv "file:///rec.m4a").2 = true ∧
    legsOverlap (handleRecordingComplete hrcHappyEnv "file:///rec.m4a").2 = false := by
  have hext : extractLast5Seconds hrcHappyEnv.fsEnv hrcHappyEnv.fs0 "file:///rec.m4a"
      hrcHappyEnv.now = (some { uri := "file:///rec.m4a", duration := 1 }, fsOneSec) :=
    extract_fsOneSec
  have heval := handleRecordingComplete_eval hrcHappyEnv "file:///rec.m4a" 1
    { uri := "file:///rec.m4a", duration := 1 } fsOneSec
    { prediction := false, confidence := 9/10 } "hello" rfl hext rfl rfl
  exact ⟨by rw [heval]; rfl, by rw [heval]; rfl, by rw [heval]; rfl⟩
